import Mathlib

/-!
Verification of the circuit-playground-firmata library (src/lib.rs).

The source is a single Rust file defining Circuit Playground Firmata command
constants, accelerometer range selectors, thermistor and capacitive-touch
constants, and a constructor `CircuitPlayground::new` that opens and
configures a serial port, performs the Firmata handshake, and stores the
resulting board in a platform-selected field.

The embedding below mirrors the source: the opcode constants are hex-digit
strings exactly as written in the Rust source, the numeric constants keep
their values, and `CircuitPlayground.new` is modelled as a function from an
explicit environment (what the operating system and device would answer) to
an `Except` result, with the printed lines and the configured serial
settings recorded in the success value.
-/

/-! ## Opcode constants (src/lib.rs lines 44-90)

In the source each constant is a `&str` holding the hexadecimal spelling of
the command byte, e.g. `static CP_PIXEL_SET: &str = "0x10";`. -/

def CP_COMMAND : String := "0x40"

def CP_PIXEL_SET : String := "0x10"

def CP_PIXEL_SHOW : String := "0x11"

def CP_PIXEL_CLEAR : String := "0x12"

def CP_PIXEL_BRIGHTNESS : String := "0x13"

def CP_TONE : String := "0x20"

def CP_NO_TONE : String := "0x21"

def CP_ACCEL_READ : String := "0x30"

def CP_ACCEL_TAP : String := "0x31"

def CP_ACCEL_READ_REPLY : String := "0x36"

def CP_ACCEL_TAP_REPLY : String := "0x37"

def CP_ACCEL_TAP_STREAM_ON : String := "0x38"

def CP_ACCEL_TAP_STREAM_OFF : String := "0x39"

def CP_ACCEL_STREAM_ON : String := "0x3A"

def CP_ACCEL_STREAM_OFF : String := "0x3B"

def CP_ACCEL_RANGE : String := "0x3C"

def CP_ACCEL_TAP_CONFIG : String := "0x3D"

def CP_CAP_READ : String := "0x40"

def CP_CAP_ON : String := "0x41"

def CP_CAP_OFF : String := "0x42"

def CP_CAP_REPLY : String := "0x43"

def CP_SENSECOLOR : String := "0x50"

def CP_SENSECOLOR_REPLY : String := "0x51"

def CP_IMPL_VERS : String := "0x60"

def CP_IMPL_VERS_REPLY : String := "0x61"

/-- Numeric value of one hexadecimal digit character, given by its code
point: 0-9 are codes 48-57, A-F are 65-70, a-f are 97-102. -/
def hexDigitVal (c : Char) : Option Nat :=
  let n := c.toNat
  if 48 ≤ n ∧ n ≤ 57 then some (n - 48)
  else if 65 ≤ n ∧ n ≤ 70 then some (n - 55)
  else if 97 ≤ n ∧ n ≤ 102 then some (n - 87)
  else none

/-- The byte value denoted by a Rust-style hexadecimal literal string such
as `"0x40"`: the numeric interpretation of the digits after `0x`. -/
def hexByteVal (s : String) : Option Nat :=
  match s.toList with
  | '0' :: 'x' :: ds =>
      if ds = [] then none
      else
        ds.foldl
          (fun acc c =>
            match acc, hexDigitVal c with
            | some a, some d => some (a * 16 + d)
            | _, _ => none)
          (some 0)
  | _ => none

/-- All opcode constants of the table, in source order (lines 44-90). -/
def opcodeValues : List String :=
  [CP_COMMAND, CP_PIXEL_SET, CP_PIXEL_SHOW, CP_PIXEL_CLEAR,
   CP_PIXEL_BRIGHTNESS, CP_TONE, CP_NO_TONE, CP_ACCEL_READ, CP_ACCEL_TAP,
   CP_ACCEL_READ_REPLY, CP_ACCEL_TAP_REPLY, CP_ACCEL_TAP_STREAM_ON,
   CP_ACCEL_TAP_STREAM_OFF, CP_ACCEL_STREAM_ON, CP_ACCEL_STREAM_OFF,
   CP_ACCEL_RANGE, CP_ACCEL_TAP_CONFIG, CP_CAP_READ, CP_CAP_ON, CP_CAP_OFF,
   CP_CAP_REPLY, CP_SENSECOLOR, CP_SENSECOLOR_REPLY, CP_IMPL_VERS,
   CP_IMPL_VERS_REPLY]

/-! ## Accelerometer range constants (src/lib.rs lines 94-97) -/

def ACCEL_2G : Nat := 0

def ACCEL_4G : Nat := 1

def ACCEL_8G : Nat := 2

def ACCEL_16G : Nat := 3

/-! ## Board peripheral constants (src/lib.rs lines 100-105)

The `f64` constants 10000.0, 25.0 and 3950.0 are exactly representable, so
they are embedded as the rational numbers they denote. -/

def THERM_PIN : Nat := 0

def THERM_SERIES_OHMS : ℚ := 10000

def THERM_NOMINAL_OHMS : ℚ := 10000

def THERM_NOMIMAL_C : ℚ := 25

def THERM_BETA : ℚ := 3950

def CAP_THRESHOLD : Nat := 300

/-! ## Serial line parameters and the constructor (src/lib.rs lines 108-140)

`CircuitPlayground::new` opens the named port with `serial::open`,
reconfigures it (57600 baud, 8 data bits, no parity, 1 stop bit, no flow
control), hands the port to `firmata::Board::new`, prints the firmware
version, firmware name and protocol version of the session, and stores the
board in `win_board` when `env::consts::OS` is `"windows"` and in
`unix_board` otherwise. Every fallible step uses `?`, so all failures
propagate as the single error type of the `Result`.

The model passes the outside world explicitly as a `PortEnv`: which port
names open, whether committing the new settings succeeds, and what the
Firmata handshake returns. The success value records the constructed
struct, the printed lines, and the settings applied to the port. -/

inductive BaudRate where
  | Baud9600 : BaudRate
  | Baud57600 : BaudRate
  | Baud115200 : BaudRate
deriving DecidableEq, Repr

/-- Line speed of a baud-rate selector, in bits per second. -/
def BaudRate.speed : BaudRate → Nat
  | .Baud9600 => 9600
  | .Baud57600 => 57600
  | .Baud115200 => 115200

inductive CharSize where
  | Bits5 : CharSize
  | Bits6 : CharSize
  | Bits7 : CharSize
  | Bits8 : CharSize
deriving DecidableEq, Repr

/-- Number of data bits of a character-size selector. -/
def CharSize.bits : CharSize → Nat
  | .Bits5 => 5
  | .Bits6 => 6
  | .Bits7 => 7
  | .Bits8 => 8

inductive Parity where
  | ParityNone : Parity
  | ParityOdd : Parity
  | ParityEven : Parity
deriving DecidableEq, Repr

inductive StopBits where
  | Stop1 : StopBits
  | Stop2 : StopBits
deriving DecidableEq, Repr

/-- Number of stop bits of a stop-bits selector. -/
def StopBits.count : StopBits → Nat
  | .Stop1 => 1
  | .Stop2 => 2

inductive FlowControl where
  | FlowNone : FlowControl
  | FlowSoftware : FlowControl
  | FlowHardware : FlowControl
deriving DecidableEq, Repr

structure SerialSettings where
  baud_rate : BaudRate
  char_size : CharSize
  parity : Parity
  stop_bits : StopBits
  flow_control : FlowControl
deriving DecidableEq, Repr

/-- An open serial port: its current line settings. -/
structure SerialPort where
  settings : SerialSettings
deriving DecidableEq, Repr

/-- The single error type of the constructor (`Box<dyn Error>` in the
source): every `?` in `new` propagates into this one category. The three
constructors record which step failed. -/
inductive ConnError where
  | openFail : ConnError
  | configFail : ConnError
  | handshakeFail : ConnError
deriving DecidableEq, Repr

/-- A Firmata session after a successful handshake, with the negotiated
identification strings reported by the firmata crate. -/
structure Board where
  firmware_name : String
  firmware_version : String
  protocol_version : String
deriving DecidableEq, Repr

/-- The `CircuitPlayground` struct: it always declares both platform
fields, and the constructor populates exactly one of them. -/
structure CircuitPlayground where
  win_board : Option Board
  unix_board : Option Board
deriving DecidableEq, Repr

/-- `settings.set_baud_rate(b)`: stores the selector. For the standard
rates used here this step accepts the value; only custom rates can be
rejected by the serial crate, so the model returns `Except.ok`. -/
def SerialSettings.set_baud_rate (s : SerialSettings) (b : BaudRate) :
    Except ConnError SerialSettings :=
  .ok { s with baud_rate := b }

def SerialSettings.set_char_size (s : SerialSettings) (c : CharSize) :
    SerialSettings :=
  { s with char_size := c }

def SerialSettings.set_parity (s : SerialSettings) (p : Parity) :
    SerialSettings :=
  { s with parity := p }

def SerialSettings.set_stop_bits (s : SerialSettings) (b : StopBits) :
    SerialSettings :=
  { s with stop_bits := b }

def SerialSettings.set_flow_control (s : SerialSettings) (f : FlowControl) :
    SerialSettings :=
  { s with flow_control := f }

/-- The closure passed to `sp.reconfigure` in `new` (src/lib.rs lines
118-125), applied to the current settings of the port. -/
def settingsClosure (settings : SerialSettings) :
    Except ConnError SerialSettings :=
  match settings.set_baud_rate .Baud57600 with
  | .error e => .error e
  | .ok s1 =>
      .ok ((((s1.set_char_size .Bits8).set_parity
        .ParityNone).set_stop_bits .Stop1).set_flow_control .FlowNone)

/-- The environment the constructor runs in: what `serial::open` returns
for each port name, whether committing the reconfigured settings to the
device succeeds, what `firmata::Board::new` returns, and the
`env::consts::OS` string. -/
structure PortEnv where
  ports : String → Option SerialPort
  reconfigureOk : Bool
  handshake : Option Board
  os : String

/-- Success value of the constructor: the struct, the lines printed by the
three `println!` calls, and the settings applied to the port. -/
structure NewOk where
  cp : CircuitPlayground
  printed : List String
  configured : SerialSettings
deriving DecidableEq, Repr

/-- `CircuitPlayground::new` (src/lib.rs lines 115-140), as a function of
the environment and the port identifier. -/
def CircuitPlayground.new (env : PortEnv) (port_id : String) :
    Except ConnError NewOk :=
  match env.ports port_id with
  | none => .error .openFail
  | some sp =>
      match settingsClosure sp.settings with
      | .error e => .error e
      | .ok cfg =>
          if env.reconfigureOk then
            match env.handshake with
            | none => .error .handshakeFail
            | some board =>
                let printed :=
                  ["firmware version " ++ board.firmware_version,
                   "firmware name " ++ board.firmware_name,
                   "protocol version " ++ board.protocol_version]
                if env.os == "windows" then
                  .ok ⟨⟨some board, none⟩, printed, cfg⟩
                else
                  .ok ⟨⟨none, some board⟩, printed, cfg⟩
          else .error .configFail

/-- The settings the closure always produces: 57600 baud, 8 data bits, no
parity, 1 stop bit, no flow control. -/
def cpLineSettings : SerialSettings :=
  ⟨.Baud57600, .Bits8, .ParityNone, .Stop1, .FlowNone⟩

/-- The three lines printed by the constructor for a session. -/
def printedLines (board : Board) : List String :=
  ["firmware version " ++ board.firmware_version,
   "firmware name " ++ board.firmware_name,
   "protocol version " ++ board.protocol_version]

/-- Closed form of the constructor: the closure always succeeds with
`cpLineSettings`, so the run is decided by the open result, the commit
flag, the handshake and the OS string. -/
theorem new_eq (env : PortEnv) (p : String) :
    CircuitPlayground.new env p =
      (match env.ports p with
      | none => .error .openFail
      | some _ =>
          if env.reconfigureOk then
            match env.handshake with
            | none => .error .handshakeFail
            | some board =>
                .ok ⟨(if env.os == "windows" then ⟨some board, none⟩
                      else ⟨none, some board⟩),
                     printedLines board, cpLineSettings⟩
          else .error .configFail) := by
  have hs : ∀ s : SerialSettings, settingsClosure s = .ok cpLineSettings :=
    fun _ => rfl
  cases hp : env.ports p <;> cases hr : env.reconfigureOk <;>
    cases hh : env.handshake <;>
      simp [CircuitPlayground.new, hp, hr, hh, hs, printedLines]
  by_cases hw : env.os = "windows" <;> simp [hw]

/-- Fixture: a port whose initial line settings differ from the target in
every field. -/
def testPort : SerialPort :=
  ⟨⟨.Baud9600, .Bits7, .ParityEven, .Stop2, .FlowHardware⟩⟩

/-- Fixture: a board answering the Firmata handshake. -/
def testBoard : Board :=
  ⟨"CircuitPlaygroundFirmata", "2.5", "2.6"⟩

/-- Fixture: a Unix machine where only /dev/ttyACM0 opens and everything
succeeds. -/
def testEnv : PortEnv :=
  ⟨fun s => if s = "/dev/ttyACM0" then some testPort else none,
   true, some testBoard, "linux"⟩

/-- Fixture: a machine with no openable port. -/
def testEnvNoPort : PortEnv :=
  ⟨fun _ => none, true, some testBoard, "linux"⟩

/-- Fixture: a Windows machine where every port opens and everything
succeeds. -/
def testEnvWin : PortEnv :=
  ⟨fun _ => some testPort, true, some testBoard, "windows"⟩

/-- Fixture: the success value of a run on a Unix machine. -/
def testOk : NewOk :=
  ⟨⟨none, some testBoard⟩, printedLines testBoard, cpLineSettings⟩

/-- Fixture: the success value of a run on a Windows machine. -/
def testOkWin : NewOk :=
  ⟨⟨some testBoard, none⟩, printedLines testBoard, cpLineSettings⟩

/-- Anatomy of a successful run: the port opened, the commit succeeded, the
handshake answered, the printed lines and configured settings are as coded,
and the board went to the field selected by the OS string. -/
theorem new_ok_spec (env : PortEnv) (port_id : String) (r : NewOk)
    (h : CircuitPlayground.new env port_id = .ok r) :
    (∃ sp, env.ports port_id = some sp) ∧ env.reconfigureOk = true ∧
    ∃ board, env.handshake = some board ∧
      r.printed = printedLines board ∧ r.configured = cpLineSettings ∧
      ((env.os = "windows" ∧ r.cp = ⟨some board, none⟩) ∨
       (env.os ≠ "windows" ∧ r.cp = ⟨none, some board⟩)) := by
  rw [new_eq] at h
  rcases hp : env.ports port_id with _ | sp <;> rw [hp] at h
  · simp at h
  · rcases hr : env.reconfigureOk <;> rw [hr] at h
    · simp at h
    · rcases hh : env.handshake with _ | b <;> rw [hh] at h
      · simp at h
      · refine ⟨⟨sp, rfl⟩, rfl, b, rfl, ?_⟩
        simp only [] at h
        by_cases hw : env.os = "windows"
        · rw [if_pos (show (env.os == "windows") = true by simp [hw])] at h
          injection h with h2
          subst h2
          exact ⟨rfl, rfl, Or.inl ⟨hw, rfl⟩⟩
        · rw [if_neg (show ¬ (env.os == "windows") = true by simp [hw])] at h
          injection h with h2
          subst h2
          exact ⟨rfl, rfl, Or.inr ⟨hw, rfl⟩⟩

/-- Anatomy of a failing run: the error names the step that failed, and
the environment shows that step failing. -/
theorem new_error_spec (env : PortEnv) (p : String) (e : ConnError)
    (h : CircuitPlayground.new env p = .error e) :
    (e = .openFail ∧ env.ports p = none) ∨
    (e = .configFail ∧ (∃ sp, env.ports p = some sp) ∧
      env.reconfigureOk = false) ∨
    (e = .handshakeFail ∧ (∃ sp, env.ports p = some sp) ∧
      env.reconfigureOk = true ∧ env.handshake = none) := by
  rw [new_eq] at h
  rcases hp : env.ports p with _ | sp <;> rw [hp] at h
  · simp only [] at h
    injection h with h1
    exact .inl ⟨h1.symm, rfl⟩
  · rcases hr : env.reconfigureOk <;> rw [hr] at h
    · simp at h
      exact .inr (.inl ⟨h.symm, ⟨sp, rfl⟩, rfl⟩)
    · rcases hh : env.handshake with _ | b <;> rw [hh] at h
      · simp at h
        exact .inr (.inr ⟨h.symm, ⟨sp, rfl⟩, rfl, rfl⟩)
      · simp only [] at h
        split at h <;> simp_all

/-- C1: every name of the opcode table holds the hexadecimal spelling of its
documented byte value: interpreting each constant as a hex literal yields
exactly the documented byte (CP_COMMAND = 0x40, PIXEL_SET = 0x10, ...,
IMPL_VERS_REPLY = 0x61). -/
theorem opcode_table_values :
    hexByteVal CP_COMMAND = some 0x40 ∧
    hexByteVal CP_PIXEL_SET = some 0x10 ∧
    hexByteVal CP_PIXEL_SHOW = some 0x11 ∧
    hexByteVal CP_PIXEL_CLEAR = some 0x12 ∧
    hexByteVal CP_PIXEL_BRIGHTNESS = some 0x13 ∧
    hexByteVal CP_TONE = some 0x20 ∧
    hexByteVal CP_NO_TONE = some 0x21 ∧
    hexByteVal CP_ACCEL_READ = some 0x30 ∧
    hexByteVal CP_ACCEL_TAP = some 0x31 ∧
    hexByteVal CP_ACCEL_READ_REPLY = some 0x36 ∧
    hexByteVal CP_ACCEL_TAP_REPLY = some 0x37 ∧
    hexByteVal CP_ACCEL_TAP_STREAM_ON = some 0x38 ∧
    hexByteVal CP_ACCEL_TAP_STREAM_OFF = some 0x39 ∧
    hexByteVal CP_ACCEL_STREAM_ON = some 0x3A ∧
    hexByteVal CP_ACCEL_STREAM_OFF = some 0x3B ∧
    hexByteVal CP_ACCEL_RANGE = some 0x3C ∧
    hexByteVal CP_ACCEL_TAP_CONFIG = some 0x3D ∧
    hexByteVal CP_CAP_READ = some 0x40 ∧
    hexByteVal CP_CAP_ON = some 0x41 ∧
    hexByteVal CP_CAP_OFF = some 0x42 ∧
    hexByteVal CP_CAP_REPLY = some 0x43 ∧
    hexByteVal CP_SENSECOLOR = some 0x50 ∧
    hexByteVal CP_SENSECOLOR_REPLY = some 0x51 ∧
    hexByteVal CP_IMPL_VERS = some 0x60 ∧
    hexByteVal CP_IMPL_VERS_REPLY = some 0x61 := by
  decide

/-- C5: the accelerometer range constants map exactly to 0, 1, 2, 3 for
2G, 4G, 8G, 16G. -/
theorem accel_range_constants :
    ACCEL_2G = 0 ∧ ACCEL_4G = 1 ∧ ACCEL_8G = 2 ∧ ACCEL_16G = 3 := by
  decide

/-- C6: the thermistor calibration constants and the capacitive-touch
threshold hold exactly their documented literal values. -/
theorem therm_cap_constants :
    THERM_SERIES_OHMS = 10000 ∧
    THERM_NOMINAL_OHMS = 10000 ∧
    THERM_NOMIMAL_C = 25 ∧
    THERM_BETA = 3950 ∧
    CAP_THRESHOLD = 300 := by
  refine ⟨rfl, rfl, rfl, rfl, rfl⟩

/-- C9: CP_CAP_READ and CP_COMMAND both hold the value 0x40, and they are
the only two names of the opcode table sharing a value: 0x40 occurs exactly
twice, and after removing one occurrence the remaining values are pairwise
distinct. -/
theorem cap_read_command_collision :
    CP_CAP_READ = CP_COMMAND ∧
    CP_COMMAND = "0x40" ∧
    opcodeValues.count "0x40" = 2 ∧
    (opcodeValues.erase "0x40").Nodup := by
  decide

/-- C2: given a port identifier, the constructor opens that port and
configures it with exactly 57600 baud, 8 data bits, no parity, 1 stop bit
and no flow control: the reconfigure closure maps any prior settings to
`cpLineSettings`, whose fields denote exactly those line parameters, and
every successful run records exactly those settings on the port. -/
theorem new_serial_line_parameters :
    (∀ s : SerialSettings, settingsClosure s = .ok cpLineSettings) ∧
    cpLineSettings.baud_rate.speed = 57600 ∧
    cpLineSettings.char_size.bits = 8 ∧
    cpLineSettings.parity = .ParityNone ∧
    cpLineSettings.stop_bits.count = 1 ∧
    cpLineSettings.flow_control = .FlowNone ∧
    ∀ (env : PortEnv) (port_id : String) (r : NewOk),
      CircuitPlayground.new env port_id = .ok r →
      r.configured = cpLineSettings := by
  refine ⟨fun _ => rfl, rfl, rfl, rfl, rfl, rfl, ?_⟩
  intro env port_id r h
  rcases new_ok_spec env port_id r h with ⟨_, _, _, _, _, hcfg, _⟩
  exact hcfg

/-- Witness for C2 at a concrete environment: the run on /dev/ttyACM0
succeeds with `testOk`, whose configured settings are `cpLineSettings`. -/
theorem new_serial_line_parameters_witness :
    CircuitPlayground.new testEnv "/dev/ttyACM0" = .ok testOk ∧
    testOk.configured = cpLineSettings :=
  ⟨rfl,
   new_serial_line_parameters.2.2.2.2.2.2 testEnv "/dev/ttyACM0" testOk rfl⟩

/-- C3: every failing run of the constructor fails in one of exactly two
kinds — the port-open/configuration phase (the port did not open, or the
new settings could not be committed) or the protocol handshake — and the
error returned is a value of the single connection error type `ConnError`
of the `Result`; there is no retry or recovery branch. -/
theorem new_failure_two_kinds (env : PortEnv) (p : String) (e : ConnError)
    (h : CircuitPlayground.new env p = .error e) :
    ((e = .openFail ∨ e = .configFail) ∧
      (env.ports p = none ∨ env.reconfigureOk = false)) ∨
    (e = .handshakeFail ∧ env.handshake = none) := by
  rcases new_error_spec env p e h with ⟨he, hp⟩ | ⟨he, _, hr⟩ | ⟨he, _, _, hh⟩
  · exact .inl ⟨.inl he, .inl hp⟩
  · exact .inl ⟨.inr he, .inr hr⟩
  · exact .inr ⟨he, hh⟩

/-- Witness for C3 at a concrete environment with no openable port: the
run fails with the open error, which is of the first kind. -/
theorem new_failure_two_kinds_witness :
    CircuitPlayground.new testEnvNoPort "COM1" = .error .openFail ∧
    (((ConnError.openFail = .openFail ∨ ConnError.openFail = .configFail) ∧
      (testEnvNoPort.ports "COM1" = none ∨
        testEnvNoPort.reconfigureOk = false)) ∨
     (ConnError.openFail = .handshakeFail ∧ testEnvNoPort.handshake = none)) :=
  ⟨rfl, new_failure_two_kinds testEnvNoPort "COM1" .openFail rfl⟩

/-- C4: on a nonexistent or busy port — one `serial::open` answers with no
port — the constructor returns the open-failure connection error, and no
success value, hence no `CircuitPlayground`, is ever produced: the error
path returns before the struct is built. -/
theorem new_open_fail_no_partial_state (env : PortEnv) (p : String)
    (hp : env.ports p = none) :
    CircuitPlayground.new env p = .error .openFail ∧
    ∀ r : NewOk, CircuitPlayground.new env p ≠ .ok r := by
  have h : CircuitPlayground.new env p = .error .openFail := by
    rw [new_eq, hp]
  exact ⟨h, fun r hr => by rw [h] at hr; exact Except.noConfusion hr⟩

/-- Witness for C4: the no-port environment satisfies the hypothesis and
the run fails with the open error. -/
theorem new_open_fail_no_partial_state_witness :
    testEnvNoPort.ports "COM1" = none ∧
    (CircuitPlayground.new testEnvNoPort "COM1" = .error .openFail ∧
     ∀ r : NewOk, CircuitPlayground.new testEnvNoPort "COM1" ≠ .ok r) :=
  ⟨rfl, new_open_fail_no_partial_state testEnvNoPort "COM1" rfl⟩

/-- C7: when the port opens, the settings commit and the firmware answers
the handshake, the constructor returns Ok with a handle holding the
session board in one of its backend fields, and it prints the firmware
version, firmware name and protocol version negotiated by that session. -/
theorem new_success_reports (env : PortEnv) (p : String) (sp : SerialPort)
    (board : Board) (hp : env.ports p = some sp)
    (hr : env.reconfigureOk = true) (hh : env.handshake = some board) :
    ∃ r : NewOk, CircuitPlayground.new env p = .ok r ∧
      (r.cp.win_board = some board ∨ r.cp.unix_board = some board) ∧
      r.printed = ["firmware version " ++ board.firmware_version,
                   "firmware name " ++ board.firmware_name,
                   "protocol version " ++ board.protocol_version] := by
  refine ⟨⟨(if env.os == "windows" then ⟨some board, none⟩
            else ⟨none, some board⟩), printedLines board, cpLineSettings⟩,
          ?_, ?_, rfl⟩
  · simp [new_eq, hp, hr, hh]
  · by_cases hw : env.os = "windows" <;> simp [hw]

/-- Witness for C7 at a concrete environment where every step succeeds. -/
theorem new_success_reports_witness :
    testEnv.ports "/dev/ttyACM0" = some testPort ∧
    testEnv.reconfigureOk = true ∧
    testEnv.handshake = some testBoard ∧
    (∃ r : NewOk, CircuitPlayground.new testEnv "/dev/ttyACM0" = .ok r ∧
      (r.cp.win_board = some testBoard ∨ r.cp.unix_board = some testBoard) ∧
      r.printed = ["firmware version " ++ testBoard.firmware_version,
                   "firmware name " ++ testBoard.firmware_name,
                   "protocol version " ++ testBoard.protocol_version]) :=
  ⟨rfl, rfl, rfl,
   new_success_reports testEnv "/dev/ttyACM0" testPort testBoard rfl rfl rfl⟩

/-- C8: every successfully constructed value populates exactly one backend
field, mutually exclusively: the board goes to `win_board` precisely when
the OS string equals "windows" and to `unix_board` otherwise, and in
either case the struct still carries both fields, the unused one empty. -/
theorem new_one_backend_populated (env : PortEnv) (p : String) (r : NewOk)
    (h : CircuitPlayground.new env p = .ok r) :
    (env.os = "windows" →
      ∃ b, env.handshake = some b ∧
        r.cp.win_board = some b ∧ r.cp.unix_board = none) ∧
    (env.os ≠ "windows" →
      ∃ b, env.handshake = some b ∧
        r.cp.win_board = none ∧ r.cp.unix_board = some b) ∧
    (r.cp.win_board.isSome ↔ r.cp.unix_board = none) := by
  rcases new_ok_spec env p r h with ⟨_, _, b, hb, _, _, hcp⟩
  rcases hcp with ⟨hw, hcp⟩ | ⟨hw, hcp⟩
  · refine ⟨fun _ => ⟨b, hb, by rw [hcp], by rw [hcp]⟩,
            fun hn => absurd hw hn, ?_⟩
    rw [hcp]
    simp
  · refine ⟨fun hww => absurd hww hw,
            fun _ => ⟨b, hb, by rw [hcp], by rw [hcp]⟩, ?_⟩
    rw [hcp]
    simp

/-- Witness for C8 at a concrete Windows environment: the run succeeds
with the board in `win_board` and `unix_board` empty. -/
theorem new_one_backend_populated_witness :
    CircuitPlayground.new testEnvWin "COM3" = .ok testOkWin ∧
    ((testEnvWin.os = "windows" →
      ∃ b, testEnvWin.handshake = some b ∧
        testOkWin.cp.win_board = some b ∧ testOkWin.cp.unix_board = none) ∧
     (testEnvWin.os ≠ "windows" →
      ∃ b, testEnvWin.handshake = some b ∧
        testOkWin.cp.win_board = none ∧ testOkWin.cp.unix_board = some b) ∧
     (testOkWin.cp.win_board.isSome ↔ testOkWin.cp.unix_board = none)) :=
  ⟨rfl, new_one_backend_populated testEnvWin "COM3" testOkWin rfl⟩

/-- C10: backend selection depends only on whether the OS string equals
"windows": every other OS value takes the Unix branch with no error or
third branch, and replacing the OS string by any other on the same side of
the comparison leaves the whole run unchanged. -/
theorem new_backend_by_os_only :
    (∀ (env : PortEnv) (p : String) (sp : SerialPort) (board : Board),
      env.ports p = some sp → env.reconfigureOk = true →
      env.handshake = some board → env.os ≠ "windows" →
      CircuitPlayground.new env p =
        .ok ⟨⟨none, some board⟩, printedLines board, cpLineSettings⟩) ∧
    (∀ (env : PortEnv) (p : String) (os2 : String),
      (env.os = "windows" ↔ os2 = "windows") →
      CircuitPlayground.new { env with os := os2 } p =
        CircuitPlayground.new env p) := by
  constructor
  · intro env p sp board hp hr hh hw
    simp [new_eq, hp, hr, hh, hw]
  · intro env p os2 hiff
    have hb : (os2 == "windows") = (env.os == "windows") := by
      by_cases h1 : env.os = "windows" <;> by_cases h2 : os2 = "windows" <;>
        simp_all
    rw [new_eq, new_eq]
    simp only [hb]

/-- Witness for C10: the Unix environment has an OS different from
"windows", and its run lands in the Unix backend field. -/
theorem new_backend_by_os_only_witness :
    testEnv.os ≠ "windows" ∧
    CircuitPlayground.new testEnv "/dev/ttyACM0" =
      .ok ⟨⟨none, some testBoard⟩, printedLines testBoard, cpLineSettings⟩ :=
  ⟨by simp [testEnv],
   new_backend_by_os_only.1 testEnv "/dev/ttyACM0" testPort testBoard rfl rfl
     rfl (by simp [testEnv])⟩
